import Mathlib

/-!
Verification development for the FAT16/FAT32 filesystem core in
`src/fat_fs/fat.c` (mmculib).  The C code is shallowly embedded:

* machine integers are modelled as `Nat`/`Int`, with an explicit
  `% 2^w` at the points where the C code truncates (stores into
  `uint16_t`/`uint32_t` fields, byte extraction);
* the single-slot sector cache is modelled as an explicit state record
  together with a trace of device events;
* the FAT is modelled as a total map from cluster index to the raw
  stored entry (`fat_entry_set` stores the low 2 or 4 bytes, so the map
  holds values already reduced mod 2^16 / 2^32);
* a directory is modelled as the linear sequence of 32-byte slots that
  the directory-entry iterator of the source produces when it walks the
  directory's sectors and cluster chain; a slot is a function from byte
  offset to byte value, with the field offsets of `struct fat_de_struct`
  (= `struct winentry` for long-name slots); the pair
  (`de_sector`, `de_offset`) that the source records for a slot is
  modelled by the slot's index in this linear sequence (within one
  directory scan the map from index to (sector, offset) is injective,
  so equality of indices models equality of the recorded pair);
* `off_t` is modelled as mathematical `Int` (exact on every input whose
  intermediate values fit the platform `off_t`).

Functions whose C originals are `while` loops without a structural
bound take an explicit fuel argument; the fuel chosen by each caller in
this file is shown, at the call site, to be large enough that the
modelled computation finishes exactly as the C loop would.
-/

/-! ## Constants from fat.c -/

def CLUST_FREE : Nat := 0

def CLUST_FIRST : Nat := 2

def CLUST_EOFS : Nat := 0xfffffff8

def CLUST_EOFE : Nat := 0xffffffff

def FAT16_MASK : Nat := 0x0000ffff

def FAT32_MASK : Nat := 0x0fffffff

def SLOT_EMPTY : Nat := 0x00

def SLOT_DELETED : Nat := 0xe5

def ATTR_LONG_FILENAME : Nat := 0x0f

def ATTR_VOLUME : Nat := 0x08

def ATTR_DIRECTORY : Nat := 0x10

def WIN_LAST : Nat := 0x40

def WIN_CNT : Nat := 0x3f

def WIN_CHARS : Nat := 13

/-! ## Sector cache (fat_sector_cache_flush / _read / _write)

The cache is the `sector` / `sector_buffer` / `dirty` triple of
`struct fat_fs_struct`.  Device I/O performed by an operation is
returned as a trace of `DevEvent`s; the device contents are a function
from sector number to its bytes. -/

structure CacheState where
  sector : Nat
  buffer : List Nat
  dirty : Bool

inductive DevEvent where
  | readEv (sector : Nat)
  | writeEv (sector : Nat) (data : List Nat)

/-- fat_sector_cache_flush: if dirty, write the buffer to the device and
clear the dirty flag. -/
def fat_sector_cache_flush (st : CacheState) : CacheState × List DevEvent :=
  if st.dirty then
    ({ st with dirty := false }, [DevEvent.writeEv st.sector st.buffer])
  else
    (st, [])

/-- fat_sector_cache_read: if the sector is already cached return at
once; otherwise flush any dirty buffer, then load the requested sector
from the device. -/
def fat_sector_cache_read (dev : Nat → List Nat) (st : CacheState)
    (sector : Nat) : CacheState × List DevEvent :=
  if sector = st.sector then
    (st, [])
  else
    let fl := fat_sector_cache_flush st
    ({ sector := sector, buffer := dev sector, dirty := fl.1.dirty },
     fl.2 ++ [DevEvent.readEv sector])

/-- fat_sector_cache_write: tag the buffer as belonging to `sector` and
mark it dirty; no device I/O. -/
def fat_sector_cache_write (st : CacheState) (sector : Nat) : CacheState :=
  { st with sector := sector, dirty := true }

/-- A cache operation naming a sector (the two cache entry points that
take a sector argument). -/
inductive CacheOp where
  | readOp (sector : Nat)
  | writeOp (sector : Nat)

def cacheOpSector : CacheOp → Nat
  | CacheOp.readOp s => s
  | CacheOp.writeOp s => s

def cacheOpApply (dev : Nat → List Nat) (st : CacheState) :
    CacheOp → CacheState × List DevEvent
  | CacheOp.readOp s => fat_sector_cache_read dev st s
  | CacheOp.writeOp s => (fat_sector_cache_write st s, [])

def isReadEv : DevEvent → Bool
  | DevEvent.readEv _ => true
  | DevEvent.writeEv _ _ => false

def countReads (evs : List DevEvent) : Nat := evs.countP isReadEv

/-! ## FAT entry interpretation (fat_entry_get)

`fat_entry_get` assembles the raw little-endian entry (2 bytes on
FAT16 zero-extended through the conversion union, 4 bytes on FAT32)
and then interprets it:

    if (cluster_new >= (CLUST_EOFS & mask)) return CLUST_EOFS;
    return cluster_new & mask;

Note the comparison is performed on the *unmasked* raw value. -/

def fatMask (isFAT32 : Bool) : Nat := if isFAT32 then FAT32_MASK else FAT16_MASK

/-- Interpretation step of fat_entry_get on the assembled raw entry. -/
def fat_entry_interp (isFAT32 : Bool) (raw : Nat) : Nat :=
  if Nat.land CLUST_EOFS (fatMask isFAT32) ≤ raw then CLUST_EOFS
  else Nat.land raw (fatMask isFAT32)

/-- Entry interpretation as the specification sentence describes it:
mask the raw value first, then compare the masked value with the
end-of-chain threshold. -/
def fat_entry_interp_specOrder (isFAT32 : Bool) (raw : Nat) : Nat :=
  let m := Nat.land raw (fatMask isFAT32)
  if Nat.land CLUST_EOFS (fatMask isFAT32) ≤ m then CLUST_EOFS else m

/-- fat_cluster_last_p: cluster >= CLUST_EOFS. -/
def fat_cluster_last_p (cluster : Nat) : Bool := CLUST_EOFS ≤ cluster

/-- fat_cluster_free_p: cluster == CLUST_FREE. -/
def fat_cluster_free_p (cluster : Nat) : Bool := cluster == CLUST_FREE

/-! ## Volume state

`struct fat_fs_struct` stripped of the device callbacks and the sector
cache (the cache is modelled separately above; at the level of the FAT
and the directories the cached sector is write-back coherent).  The FAT
is the map `fat`; `dirOf` gives, for a directory identified by its
start cluster, the linear sequence of 32-byte slots its cluster chain
holds, in iteration order of `fat_de_first`/`fat_de_next`. -/

def Slot : Type := Nat → Nat

structure Vol where
  isFAT32 : Bool
  bytes_per_sector : Nat
  sectors_per_cluster : Nat
  bytes_per_cluster : Nat
  first_data_sector : Nat
  first_dir_sector : Nat
  root_dir_cluster : Nat
  num_clusters : Nat
  fat : Nat → Nat
  dirOf : Nat → List Slot

/-- The modulus at which fat_entry_set truncates the stored value
(2 bytes are stored on FAT16, 4 on FAT32). -/
def fatStoreModulus (isFAT32 : Bool) : Nat := if isFAT32 then 2 ^ 32 else 2 ^ 16

/-- fat_entry_get on the modelled FAT map. -/
def fat_entry_get_m (v : Vol) (cluster : Nat) : Nat :=
  fat_entry_interp v.isFAT32 (v.fat cluster)

/-- fat_entry_get_check: a free entry found while following a chain is
diagnosed and surfaced as CLUST_EOFE. -/
def fat_entry_get_check_m (v : Vol) (cluster : Nat) : Nat :=
  let cluster_new := fat_entry_get_m v cluster
  if fat_cluster_free_p cluster_new then CLUST_EOFE else cluster_new

/-- fat_entry_set: patch the entry bytes of `cluster` (low 2 or 4 bytes
of `cluster_new` depending on the variant). -/
def fat_entry_set_v (v : Vol) (cluster cluster_new : Nat) : Vol :=
  { v with fat := fun x =>
      if x = cluster then cluster_new % fatStoreModulus v.isFAT32 else v.fat x }

/-- fat_sector_calc: cluster 0 denotes the FAT16 root directory region;
otherwise clusters are numbered from 2 (uint32 arithmetic). -/
def fat_sector_calc (v : Vol) (cluster : Nat) : Nat :=
  if cluster = 0 then v.first_dir_sector
  else ((cluster + 2 ^ 32 - CLUST_FIRST) % 2 ^ 32 * v.sectors_per_cluster
        + v.first_data_sector) % 2 ^ 32

/-! ## Cluster chain operations -/

/-- fat_cluster_free_find: linearly scan cluster indices
[cluster_start, num_clusters) for a free entry; 0 when none.  The scan
is written with the loop count made explicit. -/
def fat_cluster_free_find_go (v : Vol) : Nat → Nat → Nat
  | 0, _ => 0
  | fuel + 1, cluster =>
    if fat_cluster_free_p (fat_entry_get_m v cluster) then cluster
    else fat_cluster_free_find_go v fuel (cluster + 1)

def fat_cluster_free_find (v : Vol) (cluster_start : Nat) : Nat :=
  fat_cluster_free_find_go v (v.num_clusters - cluster_start) cluster_start

/-- fat_cluster_chain_append: overwrite the entry of `cluster_start`
with `cluster_new` (the source also reads the old entry for a
diagnostic trace, with no state effect). -/
def fat_cluster_chain_append (v : Vol) (cluster_start cluster_new : Nat) : Vol :=
  fat_entry_set_v v cluster_start cluster_new

/-- fat_cluster_chain_free: walk the chain from `cluster_start`;
for each link take its successor, clear the entry to 0, advance; stop
at an end-of-chain value.  The C loop is unbounded; `fuel` bounds the
modelled walk and is instantiated by callers with the chain length. -/
def fat_cluster_chain_free_v (v : Vol) (fuel cluster : Nat) : Vol :=
  if fat_cluster_last_p cluster then v
  else
    match fuel with
    | 0 => v
    | fuel + 1 =>
      let cluster_next := fat_entry_get_check_m v cluster
      fat_cluster_chain_free_v (fat_entry_set_v v cluster 0) fuel cluster_next

/-- fat_clusters_allocate, inner loop: `num` iterations of find-free /
mark end-of-chain / append to predecessor. -/
def fat_clusters_allocate_go (v : Vol) :
    Nat → Nat → Nat → Nat × Vol
  | 0, _, cluster_first => (cluster_first, v)
  | num + 1, cluster_next, cluster_first =>
    let cluster_new := fat_cluster_free_find v CLUST_FIRST
    if cluster_new = 0 then (0, v)
    else
      let cluster_first' := if cluster_first = 0 then cluster_new else cluster_first
      let v1 := fat_entry_set_v v cluster_new CLUST_EOFE
      let v2 := if cluster_next ≠ 0 then fat_cluster_chain_append v1 cluster_next cluster_new
                else v1
      fat_clusters_allocate_go v2 num cluster_new cluster_first'

/-- fat_clusters_allocate: allocate ceil(size / bytes_per_cluster)
clusters, appending each to the previous (and to `cluster_start` if
nonzero); return the first allocated cluster, or 0 on out-of-space. -/
def fat_clusters_allocate (v : Vol) (cluster_start size : Nat) : Nat × Vol :=
  if size = 0 then (0, v)
  else
    fat_clusters_allocate_go v
      ((size + v.bytes_per_cluster - 1) / v.bytes_per_cluster) cluster_start 0

/-! ## Well-formed chains

`chainOkB v cs` says the list `cs` is exactly a well-formed cluster
chain of the FAT of `v`: every link is a legal data cluster (≥ 2, not
an end-of-chain value), each entry points at the next link, no link
repeats, and the last entry is the end-of-chain sentinel. -/

def chainOkB (v : Vol) : List Nat → Bool
  | [] => false
  | [c] =>
    decide (CLUST_FIRST ≤ c) && !fat_cluster_last_p c &&
      (fat_entry_get_m v c == CLUST_EOFS)
  | c :: c' :: rest =>
    decide (CLUST_FIRST ≤ c) && !fat_cluster_last_p c &&
      (fat_entry_get_m v c == c') && !(decide (c ∈ c' :: rest)) &&
      chainOkB v (c' :: rest)

/-! ## Helper lemmas about the cache -/

theorem cacheOpApply_sector (dev : Nat → List Nat) (st : CacheState) (op : CacheOp) :
    (cacheOpApply dev st op).1.sector = cacheOpSector op := by
  cases op with
  | readOp s =>
    by_cases h : s = st.sector
    · simp [cacheOpApply, fat_sector_cache_read, h, cacheOpSector]
    · simp [cacheOpApply, fat_sector_cache_read, h, cacheOpSector]
  | writeOp s => rfl

theorem cacheOpApply_hit (dev : Nat → List Nat) (st : CacheState) (op : CacheOp)
    (h : cacheOpSector op = st.sector) : (cacheOpApply dev st op).2 = [] := by
  cases op with
  | readOp s =>
    simp only [cacheOpSector] at h
    simp [cacheOpApply, fat_sector_cache_read, h]
  | writeOp s => rfl

theorem cacheOpApply_reads_le_one (dev : Nat → List Nat) (st : CacheState)
    (op : CacheOp) : countReads (cacheOpApply dev st op).2 ≤ 1 := by
  cases op with
  | readOp s =>
    by_cases h : s = st.sector
    · simp [cacheOpApply, fat_sector_cache_read, h, countReads]
    · by_cases hd : st.dirty
      · simp [cacheOpApply, fat_sector_cache_read, h, fat_sector_cache_flush, hd,
          countReads, List.countP_cons, isReadEv]
      · simp [cacheOpApply, fat_sector_cache_read, h, fat_sector_cache_flush, hd,
          countReads, List.countP_cons, isReadEv]
  | writeOp s => simp [cacheOpApply, countReads]

/-- C8: a cache read of the sector already cached performs no device
I/O and leaves the cache unchanged; two successive cache operations on
the same sector cause at most one device read; and a cache read of a
different sector when the buffer is dirty first writes the old buffer
back to the device and then loads the requested sector. -/
theorem fat_sector_cache_read_spec (dev : Nat → List Nat) (st : CacheState)
    (s : Nat) (op1 op2 : CacheOp) :
    (s = st.sector → fat_sector_cache_read dev st s = (st, [])) ∧
    (cacheOpSector op1 = s → cacheOpSector op2 = s →
      countReads ((cacheOpApply dev st op1).2
        ++ (cacheOpApply dev (cacheOpApply dev st op1).1 op2).2) ≤ 1) ∧
    (s ≠ st.sector → st.dirty = true →
      (fat_sector_cache_read dev st s).2
        = [DevEvent.writeEv st.sector st.buffer, DevEvent.readEv s]) := by
  refine ⟨?_, ?_, ?_⟩
  · intro h
    simp [fat_sector_cache_read, h]
  · intro h1 h2
    have e2 : (cacheOpApply dev (cacheOpApply dev st op1).1 op2).2 = [] := by
      apply cacheOpApply_hit
      rw [cacheOpApply_sector, h1, h2]
    rw [e2, List.append_nil]
    exact cacheOpApply_reads_le_one dev st op1
  · intro h hd
    simp [fat_sector_cache_read, h, fat_sector_cache_flush, hd]

/-- Witness for fat_sector_cache_read_spec at concrete cache states. -/
theorem fat_sector_cache_read_spec_witness :
    fat_sector_cache_read (fun _ => []) ⟨7, [3], false⟩ 7 = (⟨7, [3], false⟩, []) ∧
    countReads ((cacheOpApply (fun _ => []) ⟨9, [], false⟩ (CacheOp.readOp 7)).2
      ++ (cacheOpApply (fun _ => [])
          (cacheOpApply (fun _ => []) ⟨9, [], false⟩ (CacheOp.readOp 7)).1
          (CacheOp.readOp 7)).2) ≤ 1 ∧
    (fat_sector_cache_read (fun _ => []) ⟨5, [1], true⟩ 0).2
      = [DevEvent.writeEv 5 [1], DevEvent.readEv 0] :=
  ⟨(fat_sector_cache_read_spec (fun _ => []) ⟨7, [3], false⟩ 7
      (CacheOp.readOp 7) (CacheOp.readOp 7)).1 rfl,
   (fat_sector_cache_read_spec (fun _ => []) ⟨9, [], false⟩ 7
      (CacheOp.readOp 7) (CacheOp.readOp 7)).2.1 rfl rfl,
   (fat_sector_cache_read_spec (fun _ => []) ⟨5, [1], true⟩ 0
      (CacheOp.readOp 0) (CacheOp.readOp 0)).2.2 (by decide) rfl⟩

/-! ## C4: masking order in fat_entry_get -/

/-- C4 counterexample: on FAT32 the code compares the raw entry with
the masked end-of-chain threshold *before* masking, so the raw value
0x10000000 (whose masked form is 0, i.e. free) is returned as the
end-of-chain sentinel, not as the masked value 0 that the claim
requires. -/
theorem fat_entry_get_mask_order_cx :
    fat_entry_interp true 0x10000000 = CLUST_EOFS ∧
    fat_entry_interp_specOrder true 0x10000000 = 0 ∧
    fat_entry_interp true 0x10000000 ≠ fat_entry_interp_specOrder true 0x10000000 := by
  refine ⟨by decide, by decide, by decide⟩

/-- C4 amended: fat_entry_get compares the *unmasked* raw entry against
the variant's masked end-of-chain threshold (0xfff8 on FAT16,
0x0ffffff8 on FAT32), collapsing larger values to the canonical
sentinel and masking the rest.  This coincides with the claimed
mask-first interpretation on every FAT16 raw entry (which is 2 bytes,
hence < 2^16) and on every FAT32 raw entry whose reserved top nibble is
clear (raw < 2^28); it differs only on FAT32 raw values with the top
nibble set. -/
theorem fat_entry_get_mask_order (isFAT32 : Bool) (raw : Nat) :
    (fat_entry_interp isFAT32 raw =
      if (if isFAT32 then 0x0ffffff8 else 0xfff8 : Nat) ≤ raw then CLUST_EOFS
      else Nat.land raw (fatMask isFAT32)) ∧
    (isFAT32 = false → raw < 2 ^ 16 →
      fat_entry_interp isFAT32 raw = fat_entry_interp_specOrder isFAT32 raw) ∧
    (isFAT32 = true → raw < 2 ^ 28 →
      fat_entry_interp isFAT32 raw = fat_entry_interp_specOrder isFAT32 raw) := by
  have hm16 : Nat.land CLUST_EOFS (fatMask false) = 0xfff8 := by decide
  have hm32 : Nat.land CLUST_EOFS (fatMask true) = 0x0ffffff8 := by decide
  refine ⟨?_, ?_, ?_⟩
  · cases isFAT32
    · rw [fat_entry_interp, hm16]
      simp
    · rw [fat_entry_interp, hm32]
      simp
  · rintro rfl hr
    have hland : Nat.land raw (fatMask false) = raw := by
      show raw &&& (fatMask false) = raw
      have h1 : raw &&& (2 ^ 16 - 1) = raw % 2 ^ 16 :=
        Nat.and_pow_two_sub_one_eq_mod raw 16
      have h2 : (fatMask false : Nat) = 2 ^ 16 - 1 := by decide
      rw [h2, h1, Nat.mod_eq_of_lt hr]
    rw [fat_entry_interp, fat_entry_interp_specOrder, hland]
  · rintro rfl hr
    have hland : Nat.land raw (fatMask true) = raw := by
      show raw &&& (fatMask true) = raw
      have h1 : raw &&& (2 ^ 28 - 1) = raw % 2 ^ 28 :=
        Nat.and_pow_two_sub_one_eq_mod raw 28
      have h2 : (fatMask true : Nat) = 2 ^ 28 - 1 := by decide
      rw [h2, h1, Nat.mod_eq_of_lt hr]
    rw [fat_entry_interp, fat_entry_interp_specOrder, hland]

/-- Witness for fat_entry_get_mask_order on concrete raw entries. -/
theorem fat_entry_get_mask_order_witness :
    (fat_entry_interp false 0xfff7 =
      if (0xfff8 : Nat) ≤ 0xfff7 then CLUST_EOFS
      else Nat.land 0xfff7 (fatMask false)) ∧
    fat_entry_interp false 0xfff7 = fat_entry_interp_specOrder false 0xfff7 ∧
    fat_entry_interp true 123 = fat_entry_interp_specOrder true 123 :=
  ⟨(fat_entry_get_mask_order false 0xfff7).1,
   (fat_entry_get_mask_order false 0xfff7).2.1 rfl (by decide),
   (fat_entry_get_mask_order true 123).2.2 rfl (by decide)⟩

/-! ## Chain freeing clears exactly the chain -/

theorem fat_entry_set_v_isFAT32 (v : Vol) (a b : Nat) :
    (fat_entry_set_v v a b).isFAT32 = v.isFAT32 := rfl

theorem fat_entry_set_v_dirOf (v : Vol) (a b : Nat) :
    (fat_entry_set_v v a b).dirOf = v.dirOf := rfl

theorem fat_entry_set_v_fat_ne (v : Vol) (a b x : Nat) (h : x ≠ a) :
    (fat_entry_set_v v a b).fat x = v.fat x := by
  simp [fat_entry_set_v, h]

theorem fat_entry_set_v_fat_self (v : Vol) (a b : Nat) :
    (fat_entry_set_v v a b).fat a = b % fatStoreModulus v.isFAT32 := by
  simp [fat_entry_set_v]

theorem fat_cluster_chain_free_v_last (v : Vol) (fuel cluster : Nat)
    (h : fat_cluster_last_p cluster = true) :
    fat_cluster_chain_free_v v fuel cluster = v := by
  rw [fat_cluster_chain_free_v.eq_def]
  simp [h]

theorem fat_cluster_chain_free_v_step (v : Vol) (fuel cluster : Nat)
    (h : fat_cluster_last_p cluster = false) :
    fat_cluster_chain_free_v v (fuel + 1) cluster
      = fat_cluster_chain_free_v (fat_entry_set_v v cluster 0) fuel
          (fat_entry_get_check_m v cluster) := by
  rw [fat_cluster_chain_free_v.eq_def]
  simp [h]

theorem chainOkB_head (v : Vol) (c : Nat) (cs : List Nat)
    (h : chainOkB v (c :: cs) = true) :
    CLUST_FIRST ≤ c ∧ fat_cluster_last_p c = false := by
  cases cs with
  | nil =>
    simp only [chainOkB, Bool.and_eq_true, decide_eq_true_eq, Bool.not_eq_true',
      beq_iff_eq] at h
    exact ⟨h.1.1, h.1.2⟩
  | cons c' rest =>
    simp only [chainOkB, Bool.and_eq_true, decide_eq_true_eq, Bool.not_eq_true',
      beq_iff_eq] at h
    exact ⟨h.1.1.1.1, h.1.1.1.2⟩

theorem chainOkB_congr (v v' : Vol) (h32 : v'.isFAT32 = v.isFAT32) (cs : List Nat)
    (hf : ∀ c ∈ cs, v'.fat c = v.fat c) : chainOkB v' cs = chainOkB v cs := by
  induction cs with
  | nil => rfl
  | cons c cs ih =>
    cases cs with
    | nil =>
      simp [chainOkB, fat_entry_get_m, h32, hf c (by simp)]
    | cons c' rest =>
      have hget : fat_entry_get_m v' c = fat_entry_get_m v c := by
        rw [fat_entry_get_m, fat_entry_get_m, h32, hf c (by simp)]
      have htail : chainOkB v' (c' :: rest) = chainOkB v (c' :: rest) :=
        ih fun x hx => hf x (by simp [hx])
      simp only [chainOkB, hget, htail]

/-- Freeing a well-formed chain clears the FAT entry of every cluster
of the chain to 0 and leaves every other FAT entry untouched (the walk
stops at the end-of-chain sentinel). -/
theorem fat_cluster_chain_free_clears (cs : List Nat) (v : Vol) (start : Nat)
    (hok : chainOkB v cs = true) (hhead : cs.head? = some start) :
    (∀ c ∈ cs, (fat_cluster_chain_free_v v cs.length start).fat c = 0) ∧
    (∀ c, c ∉ cs → (fat_cluster_chain_free_v v cs.length start).fat c = v.fat c) := by
  induction cs generalizing v start with
  | nil => cases hhead
  | cons c tail ih =>
    have hstart : start = c := by
      simp only [List.head?_cons, Option.some.injEq] at hhead
      exact hhead.symm
    subst hstart
    obtain ⟨hge, hlast⟩ := chainOkB_head v start tail hok
    cases tail with
    | nil =>
      simp only [chainOkB, Bool.and_eq_true, decide_eq_true_eq, Bool.not_eq_true',
        beq_iff_eq] at hok
      have hnext : fat_entry_get_check_m v start = CLUST_EOFS := by
        rw [fat_entry_get_check_m]
        simp [hok.2, fat_cluster_free_p, CLUST_EOFS, CLUST_FREE]
      have hstep := fat_cluster_chain_free_v_step v 0 start hlast
      rw [hnext] at hstep
      have hdone := fat_cluster_chain_free_v_last
        (fat_entry_set_v v start 0) 0 CLUST_EOFS (by decide)
      rw [List.length_singleton, hstep, hdone]
      constructor
      · intro x hx
        simp only [List.mem_singleton] at hx
        subst hx
        rw [fat_entry_set_v_fat_self]
        exact Nat.zero_mod _
      · intro x hx
        simp only [List.mem_singleton] at hx
        exact fat_entry_set_v_fat_ne v start 0 x hx
    | cons c' rest =>
      simp only [chainOkB, Bool.and_eq_true, decide_eq_true_eq, Bool.not_eq_true',
        beq_iff_eq, Bool.not_eq_true] at hok
      obtain ⟨⟨⟨⟨_, _⟩, hget⟩, hnotmem⟩, htail⟩ := hok
      have hnotmem' : start ∉ c' :: rest := by
        simpa using hnotmem
      have hc' : CLUST_FIRST ≤ c' := (chainOkB_head v c' rest htail).1
      have hnext : fat_entry_get_check_m v start = c' := by
        rw [fat_entry_get_check_m]
        have hfree : fat_cluster_free_p c' = false := by
          simp only [fat_cluster_free_p, CLUST_FREE, beq_eq_false_iff_ne, ne_eq]
          intro h0
          rw [h0] at hc'
          simp [CLUST_FIRST] at hc'
        simp [hget, hfree]
      have hstep := fat_cluster_chain_free_v_step v (c' :: rest).length start hlast
      rw [hnext] at hstep
      have hok1 : chainOkB (fat_entry_set_v v start 0) (c' :: rest) = true := by
        rw [chainOkB_congr v (fat_entry_set_v v start 0) rfl (c' :: rest)
          (fun x hx => fat_entry_set_v_fat_ne v start 0 x
            (fun hxe => hnotmem' (hxe ▸ hx)))]
        exact htail
      have ihres := ih (fat_entry_set_v v start 0) c' hok1 rfl
      have hlen : (start :: c' :: rest).length = (c' :: rest).length + 1 := rfl
      rw [hlen, hstep]
      constructor
      · intro x hx
        rcases List.mem_cons.1 hx with hx | hx
        · subst hx
          rw [ihres.2 x hnotmem', fat_entry_set_v_fat_self]
          exact Nat.zero_mod _
        · exact ihres.1 x hx
      · intro x hx
        have hx1 : x ≠ start := fun he => hx (he ▸ List.mem_cons_self _ _)
        have hx2 : x ∉ c' :: rest := fun hm => hx (List.mem_cons_of_mem _ hm)
        rw [ihres.2 x hx2]
        exact fat_entry_set_v_fat_ne v start 0 x hx1

/-! ## fat_stats (C9) -/

/-- The list of cluster indices the fat_stats scan examines:
for (cluster = CLUST_FIRST; cluster < num_clusters; cluster++). -/
def fat_stats_examined (v : Vol) : List Nat :=
  List.range' CLUST_FIRST (v.num_clusters - CLUST_FIRST)

/-- The allocated-cluster count accumulated by the fat_stats loop. -/
def fat_stats_alloc (v : Vol) : Nat :=
  (fat_stats_examined v).countP fun c => !fat_cluster_free_p (fat_entry_get_m v c)

structure FatStats where
  total : Nat
  free : Nat
  alloc : Nat

/-- fat_stats: count allocated clusters over the scan, then
total = num_clusters and free = total - alloc. -/
def fat_stats (v : Vol) : FatStats :=
  { total := v.num_clusters
    free := v.num_clusters - fat_stats_alloc v
    alloc := fat_stats_alloc v }

/-- C9: stats satisfy total = num_clusters and free + alloc = total;
alloc counts exactly the non-free FAT entries among the examined
clusters, and the examined clusters are exactly [CLUST_FIRST,
num_clusters) - in particular clusters 0 and 1 and the two highest
legal data clusters (num_clusters and num_clusters + 1) are never
examined. -/
theorem fat_stats_spec (v : Vol) :
    (fat_stats v).total = v.num_clusters ∧
    (fat_stats v).free + (fat_stats v).alloc = (fat_stats v).total ∧
    (fat_stats v).alloc = ((fat_stats_examined v).filter
      (fun c => !fat_cluster_free_p (fat_entry_get_m v c))).length ∧
    (∀ c, c ∈ fat_stats_examined v ↔ CLUST_FIRST ≤ c ∧ c < v.num_clusters) := by
  have hmem : ∀ c, c ∈ fat_stats_examined v ↔ CLUST_FIRST ≤ c ∧ c < v.num_clusters := by
    intro c
    rw [fat_stats_examined, List.mem_range'_1]
    simp only [CLUST_FIRST]
    omega
  refine ⟨rfl, ?_, ?_, hmem⟩
  · have h1 : fat_stats_alloc v ≤ (fat_stats_examined v).length :=
      List.countP_le_length _
    have h2 : (fat_stats_examined v).length = v.num_clusters - CLUST_FIRST := by
      rw [fat_stats_examined, List.length_range']
    simp only [CLUST_FIRST] at h2
    simp only [fat_stats]
    omega
  · exact List.countP_eq_length_filter _ _

/-- A concrete FAT32 volume used as witness input for stats. -/
def V9 : Vol :=
  { isFAT32 := true
    bytes_per_sector := 512
    sectors_per_cluster := 1
    bytes_per_cluster := 512
    first_data_sector := 100
    first_dir_sector := 0
    root_dir_cluster := 2
    num_clusters := 6
    fat := fun c => if c = 2 then 0x0ffffff8 else 0
    dirOf := fun _ => [] }

/-- Witness for fat_stats_spec on the concrete volume V9. -/
theorem fat_stats_spec_witness :
    (fat_stats V9).total = 6 ∧
    (fat_stats V9).free + (fat_stats V9).alloc = 6 ∧
    (0 ∈ fat_stats_examined V9 ↔ CLUST_FIRST ≤ 0 ∧ 0 < V9.num_clusters) :=
  ⟨(fat_stats_spec V9).1,
   (fat_stats_spec V9).2.1,
   (fat_stats_spec V9).2.2.2 0⟩

/-! ## File handles (struct fat_struct) and open flags

The open flags tested by the source (O_RDWR, O_WRONLY, O_CREAT,
O_TRUNC, O_APPEND) are modelled as individual booleans of a `Mode`
record; the source tests them with independent bit masks. -/

structure Mode where
  rdwr : Bool
  wronly : Bool
  creat : Bool
  trunc : Bool
  append : Bool

structure Fat where
  mode : Mode
  file_offset : Nat
  file_size : Nat
  start_cluster : Nat
  cluster : Nat
  de_parent : Nat
  de_index : Nat

/-! ## fat_lseek (C6)

`off_t` is modelled as `Int`.  The two stores into the `uint32_t`
`file_offset` field and the `(uint32_t)` comparison cast are exact here
because they are applied after the clamp, when 0 ≤ fpos ≤ file_size. -/

inductive Whence where
  | seekSet
  | seekCur
  | seekEnd

/-- The chain walk at the end of fat_lseek: follow the FAT `num` steps
from the current cluster, stopping early at end-of-chain. -/
def fat_lseek_walk (v : Vol) : Nat → Nat → Nat
  | 0, cluster => cluster
  | num + 1, cluster =>
    let cluster_new := fat_entry_get_check_m v cluster
    if fat_cluster_last_p cluster_new then cluster
    else fat_lseek_walk v num cluster_new

/-- fat_lseek: compute the position for the whence, clamp into
[0, file_size], store it as the new offset, resync the current cluster
by walking fpos / bytes_per_cluster links from the start cluster, and
return the clamped position. -/
def fat_lseek (v : Vol) (f : Fat) (offset : Int) (whence : Whence) : Fat × Int :=
  let fpos0 : Int :=
    match whence with
    | Whence.seekSet => offset
    | Whence.seekCur => (f.file_offset : Int) + offset
    | Whence.seekEnd => (f.file_size : Int) + offset
  let fpos1 : Int := if fpos0 < 0 then 0 else fpos0
  let fpos : Int := if (f.file_size : Int) < fpos1 then (f.file_size : Int) else fpos1
  let num := fpos.toNat / v.bytes_per_cluster
  let cluster := fat_lseek_walk v num f.start_cluster
  ({ f with file_offset := fpos.toNat, cluster := cluster }, fpos)

/-- The absolute position requested by an lseek call (the claim's
"absolute position for that whence"). -/
def lseekAbs (f : Fat) (offset : Int) : Whence → Int
  | Whence.seekSet => offset
  | Whence.seekCur => (f.file_offset : Int) + offset
  | Whence.seekEnd => (f.file_size : Int) + offset

/-- C6: lseek returns the absolute position clamped into
[0, file_size], stores that value as the new file offset, and
lseek(f, 0, END) returns the recorded file size. -/
theorem fat_lseek_spec (v : Vol) (f : Fat) (offset : Int) (whence : Whence) :
    (fat_lseek v f offset whence).2
      = max 0 (min (lseekAbs f offset whence) (f.file_size : Int)) ∧
    ((fat_lseek v f offset whence).1.file_offset
      = (max 0 (min (lseekAbs f offset whence) (f.file_size : Int))).toNat) ∧
    (whence = Whence.seekEnd → offset = 0 →
      (fat_lseek v f offset whence).2 = (f.file_size : Int)) := by
  have habs : ∀ w, lseekAbs f offset w
      = (match w with
         | Whence.seekSet => offset
         | Whence.seekCur => (f.file_offset : Int) + offset
         | Whence.seekEnd => (f.file_size : Int) + offset) := fun w => rfl
  refine ⟨?_, ?_, ?_⟩
  · cases whence <;>
      simp only [fat_lseek, lseekAbs] <;> omega
  · cases whence <;>
      simp only [fat_lseek, lseekAbs] <;>
      split <;> split <;> omega
  · rintro rfl rfl
    simp only [fat_lseek]
    omega

/-- Witness for fat_lseek_spec: seeking to END at offset 0 on a
concrete handle returns the recorded size. -/
def F6 : Fat :=
  { mode := { rdwr := false, wronly := false, creat := false,
              trunc := false, append := false }
    file_offset := 3
    file_size := 17
    start_cluster := 2
    cluster := 2
    de_parent := 2
    de_index := 0 }

theorem fat_lseek_spec_witness :
    (fat_lseek V9 F6 0 Whence.seekEnd).2
      = max 0 (min (lseekAbs F6 0 Whence.seekEnd) (F6.file_size : Int)) ∧
    (fat_lseek V9 F6 0 Whence.seekEnd).2 = (F6.file_size : Int) :=
  ⟨(fat_lseek_spec V9 F6 0 Whence.seekEnd).1,
   (fat_lseek_spec V9 F6 0 Whence.seekEnd).2.2 rfl rfl⟩

/-! ## Directory slots

A slot is the 32-byte record `struct fat_de_struct`, byte-addressed
(packed, little-endian): name 0-7, extension 8-10, attributes 11,
lowerCase 12, CHundredth 13, CTime 14-15, CDate 16-17, ADate 18-19,
cluster_high 20-21, MTime 22-23, MDate 24-25, cluster_low 26-27,
file_size 28-31.  A long-name slot (struct winentry) re-reads the same
bytes: weCnt 0, wePart1 1-10, weAttributes 11, weChksum 13,
wePart2 14-25, wePart3 28-31. -/

/-- Build a slot from an explicit byte list (unlisted bytes are 0). -/
def slotOfList (l : List Nat) : Slot := fun i => l.getD i 0

def slotName0 (s : Slot) : Nat := s 0

def slotAttributes (s : Slot) : Nat := s 11

def slotClusterHigh (s : Slot) : Nat := s 20 + 256 * s 21

def slotClusterLow (s : Slot) : Nat := s 26 + 256 * s 27

def slotFileSize (s : Slot) : Nat :=
  s 28 + 256 * s 29 + 2 ^ 16 * s 30 + 2 ^ 24 * s 31

/-- Overwrite the 4 file_size bytes of a slot (de->file_size = size). -/
def slotSetFileSize (s : Slot) (size : Nat) : Slot := fun j =>
  if j = 28 then size % 256
  else if j = 29 then size / 2 ^ 8 % 256
  else if j = 30 then size / 2 ^ 16 % 256
  else if j = 31 then size / 2 ^ 24 % 256
  else s j

/-- Mark a slot deleted (de->name[0] = SLOT_DELETED). -/
def slotMarkDeleted (s : Slot) : Slot := fun j =>
  if j = 0 then SLOT_DELETED else s j

def fat_de_attr_long_filename_p (s : Slot) : Bool :=
  Nat.land (slotAttributes s) ATTR_LONG_FILENAME == ATTR_LONG_FILENAME

def fat_de_attr_volume_p (s : Slot) : Bool :=
  Nat.land (slotAttributes s) ATTR_VOLUME == ATTR_VOLUME

def fat_de_attr_dir_p (s : Slot) : Bool :=
  Nat.land (slotAttributes s) ATTR_DIRECTORY == ATTR_DIRECTORY

theorem slotFileSize_slotSetFileSize (s : Slot) (size : Nat) :
    slotFileSize (slotSetFileSize s size) = size % 2 ^ 32 := by
  simp only [slotFileSize, slotSetFileSize]
  norm_num
  omega

/-! ## fat_size_set (persist the size into the directory entry)

The source reads the slot's sector into the cache, patches the 4
file_size bytes at the recorded (de_sector, de_offset), marks the
sector dirty and leaves the flush to the caller.  In the model the
slot lives at index `de_index` of the parent directory `de_parent`. -/

def fat_size_set (v : Vol) (de_parent de_index size : Nat) : Vol :=
  { v with dirOf := fun c =>
      if c = de_parent then List.set (v.dirOf c) de_index (slotSetFileSize (List.getD (v.dirOf c) de_index (fun _ => 0)) size)
      else v.dirOf c }

/-- The size recorded in the directory slot of a file. -/
def recordedSize (v : Vol) (de_parent de_index : Nat) : Nat :=
  slotFileSize ((v.dirOf de_parent).getD de_index (fun _ => 0))

theorem fat_size_set_fat (v : Vol) (p i n : Nat) :
    (fat_size_set v p i n).fat = v.fat := rfl

theorem recordedSize_fat_size_set (v : Vol) (p i n : Nat)
    (h : i < (v.dirOf p).length) :
    recordedSize (fat_size_set v p i n) p i = n % 2 ^ 32 := by
  unfold recordedSize fat_size_set
  simp only [eq_self_iff_true, if_true]
  rw [List.getD_eq_getElem?_getD, List.getElem?_set_self (by simpa using h)]
  simp [slotFileSize_slotSetFileSize]

/-! ## fat_write (C1, C7)

The write loop transfers up to one sector per iteration through a
direct device write (bypassing the cache); at each cluster boundary it
allocates one fresh cluster and splices it onto the current one.  The
loop variable `bytes_left` is a `uint16_t` in the source, so the
requested length enters the loop reduced mod 2^16; `file_offset` and
`file_size` are `uint32_t`.  The loop runs at most `bytes_left`
iterations when bytes_per_sector ≥ 1 (each iteration transfers at
least one byte), which is the fuel `fat_write` passes. -/

/-- The per-iteration transfer size of the read/write loops: limit to
one sector, then to the bytes remaining in the current sector. -/
def fat_write_nbytes (v : Vol) (file_offset bytes_left : Nat) : Nat :=
  let offset := file_offset % v.bytes_per_sector
  let nbytes0 := if bytes_left < v.bytes_per_sector then bytes_left
                 else v.bytes_per_sector
  if v.bytes_per_sector - offset < nbytes0 then v.bytes_per_sector - offset
  else nbytes0

structure WriteOut where
  f : Fat
  v : Vol
  bytes_left : Nat
  trace : List (Nat × Nat × Nat)

def fat_write_go (v : Vol) (f : Fat) :
    Nat → Nat → List (Nat × Nat × Nat) → WriteOut
  | 0, bytes_left, trace => ⟨f, v, bytes_left, trace⟩
  | fuel + 1, bytes_left, trace =>
    if bytes_left = 0 then ⟨f, v, bytes_left, trace⟩
    else
      let offset := f.file_offset % v.bytes_per_sector
      let sector := fat_sector_calc v f.cluster
        + (f.file_offset % v.bytes_per_cluster) / v.bytes_per_sector
      let nbytes := fat_write_nbytes v f.file_offset bytes_left
      let trace' := trace ++ [(sector, offset, nbytes)]
      let f1 : Fat := { f with file_offset := (f.file_offset + nbytes) % 2 ^ 32 }
      let bytes_left' := bytes_left - nbytes
      if f1.file_offset % v.bytes_per_cluster = 0 then
        let alloc := fat_clusters_allocate v f1.cluster 1
        let f2 : Fat := { f1 with cluster := alloc.1 }
        if alloc.1 = 0 then ⟨f2, alloc.2, bytes_left', trace'⟩
        else fat_write_go alloc.2 f2 fuel bytes_left' trace'
      else fat_write_go v f1 fuel bytes_left' trace'

/-- fat_write: fail with -1 (EINVAL) unless the mode is writable; run
the transfer loop; add the transferred count to file_size and persist
it into the directory entry; flush. -/
def fat_write (v : Vol) (f : Fat) (len : Nat) :
    Vol × Fat × Int × List (Nat × Nat × Nat) :=
  if ¬ (f.mode.rdwr = true ∨ f.mode.wronly = true) then (v, f, -1, [])
  else
    let out := fat_write_go v f (len % 2 ^ 16) (len % 2 ^ 16) []
    let size' := (out.f.file_size + (len - out.bytes_left)) % 2 ^ 32
    let f' : Fat := { out.f with file_size := size' }
    let v' := fat_size_set out.v f'.de_parent f'.de_index size'
    (v', f', ((len - out.bytes_left : Nat) : Int), out.trace)

theorem fat_clusters_allocate_go_dirOf (v : Vol) (num cn cf : Nat) :
    (fat_clusters_allocate_go v num cn cf).2.dirOf = v.dirOf := by
  induction num generalizing v cn cf with
  | zero => rfl
  | succ n ih =>
    rw [fat_clusters_allocate_go]
    dsimp only
    split
    · rfl
    · split <;> exact ih _ _ _

theorem fat_clusters_allocate_dirOf (v : Vol) (a b : Nat) :
    (fat_clusters_allocate v a b).2.dirOf = v.dirOf := by
  rw [fat_clusters_allocate]
  split
  · rfl
  · exact fat_clusters_allocate_go_dirOf _ _ _ _

/-- The write loop does not touch file_size, the directory-entry
locator fields, or any directory contents, and never increases the
residual byte count. -/
theorem fat_write_go_preserve (v : Vol) (f : Fat) (fuel bl : Nat)
    (trace : List (Nat × Nat × Nat)) :
    (fat_write_go v f fuel bl trace).f.file_size = f.file_size ∧
    (fat_write_go v f fuel bl trace).f.de_parent = f.de_parent ∧
    (fat_write_go v f fuel bl trace).f.de_index = f.de_index ∧
    (fat_write_go v f fuel bl trace).v.dirOf = v.dirOf ∧
    (fat_write_go v f fuel bl trace).bytes_left ≤ bl := by
  induction fuel generalizing v f bl trace with
  | zero => exact ⟨rfl, rfl, rfl, rfl, Nat.le_refl _⟩
  | succ fuel ih =>
    rw [fat_write_go]
    dsimp only
    split
    · exact ⟨rfl, rfl, rfl, rfl, Nat.le_refl _⟩
    · split
      · split
        · exact ⟨rfl, rfl, rfl, fat_clusters_allocate_dirOf _ _ _, Nat.sub_le _ _⟩
        · refine ⟨?_, ?_, ?_, ?_, ?_⟩
          · exact (ih _ _ _ _).1
          · exact (ih _ _ _ _).2.1
          · exact (ih _ _ _ _).2.2.1
          · exact ((ih _ _ _ _).2.2.2.1).trans (fat_clusters_allocate_dirOf _ _ _)
          · exact Nat.le_trans (ih _ _ _ _).2.2.2.2 (Nat.sub_le _ _)
      · refine ⟨?_, ?_, ?_, ?_, ?_⟩
        · exact (ih _ _ _ _).1
        · exact (ih _ _ _ _).2.1
        · exact (ih _ _ _ _).2.2.1
        · exact (ih _ _ _ _).2.2.2.1
        · exact Nat.le_trans (ih _ _ _ _).2.2.2.2 (Nat.sub_le _ _)

/-- C7: fat_write on a handle whose mode has neither O_RDWR nor
O_WRONLY fails with -1 (EINVAL), performs no device write, and leaves
the handle and the volume (offset, size, FAT, directories) unchanged;
conversely on a writable handle the result is a transferred byte count
≥ 0, never the invalid-mode error. -/
theorem fat_write_invalid_mode (v : Vol) (f : Fat) (len : Nat) :
    (¬ (f.mode.rdwr = true ∨ f.mode.wronly = true) →
      fat_write v f len = (v, f, -1, [])) ∧
    ((f.mode.rdwr = true ∨ f.mode.wronly = true) →
      0 ≤ (fat_write v f len).2.2.1 ∧ (fat_write v f len).2.2.1 ≠ -1) := by
  constructor
  · intro h
    rw [fat_write, if_pos h]
  · intro h
    rw [fat_write, if_neg (not_not_intro h)]
    refine ⟨Int.ofNat_nonneg _, ?_⟩
    intro hc
    cases hc

/-- Read-only mode (no O_RDWR, no O_WRONLY). -/
def M_RDONLY : Mode :=
  { rdwr := false, wronly := false, creat := false, trunc := false, append := false }

/-- O_RDWR mode. -/
def M_RDWR : Mode :=
  { rdwr := true, wronly := false, creat := false, trunc := false, append := false }

/-- A read-only handle used as witness input. -/
def F7 : Fat :=
  { mode := M_RDONLY, file_offset := 0, file_size := 2, start_cluster := 3,
    cluster := 3, de_parent := 2, de_index := 0 }

/-- A 32-byte short entry for the file "B.TXT", start cluster 3,
size 2 (name "B␠␠␠␠␠␠␠", extension "TXT", attribute ARCHIVE 0x20,
1980 dates, cluster_low = 3, file_size = 2). -/
def SlotF1 : Slot := slotOfList
  [66, 32, 32, 32, 32, 32, 32, 32, 84, 88, 84, 0x20, 0, 0, 0, 0,
   0x20, 0, 0x20, 0, 0, 0, 0, 0, 0x20, 0, 3, 0, 2, 0, 0, 0]

/-- The all-zero slot: first name byte 0x00, the end-of-directory
marker. -/
def TermSlot : Slot := slotOfList []

/-- A concrete FAT32 volume: root directory (cluster 2) holds B.TXT
whose one-cluster chain is cluster 3; small sectors keep evaluation
cheap (the model takes the geometry from the volume record). -/
def V1 : Vol :=
  { isFAT32 := true
    bytes_per_sector := 4
    sectors_per_cluster := 1
    bytes_per_cluster := 4
    first_data_sector := 10
    first_dir_sector := 0
    root_dir_cluster := 2
    num_clusters := 8
    fat := fun c => if c = 2 ∨ c = 3 then 0x0ffffff8 else 0
    dirOf := fun c => if c = 2 then [SlotF1, TermSlot] else [] }

/-- A writable handle on B.TXT of V1, seeked back to offset 0 with
recorded size 2. -/
def F1 : Fat :=
  { mode := M_RDWR, file_offset := 0, file_size := 2, start_cluster := 3,
    cluster := 3, de_parent := 2, de_index := 0 }

/-- Witness for fat_write_invalid_mode: a read-only handle fails with
-1 and nothing changes; a writable handle returns a count ≥ 0. -/
theorem fat_write_invalid_mode_witness :
    fat_write V9 F7 5 = (V9, F7, -1, []) ∧
    0 ≤ (fat_write V1 F1 1).2.2.1 ∧ (fat_write V1 F1 1).2.2.1 ≠ -1 :=
  ⟨(fat_write_invalid_mode V9 F7 5).1 (by decide),
   ((fat_write_invalid_mode V1 F1 1).2 (Or.inl rfl)).1,
   ((fat_write_invalid_mode V1 F1 1).2 (Or.inl rfl)).2⟩

/-- C1 counterexample: on V1/F1 (file of size 2, offset seeked back to
0) writing 1 byte transfers 1 byte, advances the offset to 1, and
records size 3 = old_size + 1 in the directory entry - not
max(old_size, new_offset) = max(2, 1) = 2 as the claim states:
overwriting interior bytes does change the recorded size. -/
theorem fat_write_size_update_cx :
    (fat_write V1 F1 1).2.2.1 = 1 ∧
    (fat_write V1 F1 1).2.1.file_offset = 1 ∧
    F1.file_size = 2 ∧
    recordedSize (fat_write V1 F1 1).1 F1.de_parent F1.de_index = 3 ∧
    recordedSize (fat_write V1 F1 1).1 F1.de_parent F1.de_index
      ≠ max F1.file_size (fat_write V1 F1 1).2.1.file_offset := by
  refine ⟨by decide, by decide, rfl, by decide, by decide⟩

/-- C1 amended: after a write on a writable handle that transfers k
bytes (the return value), the in-memory size and the size recorded in
the directory slot both become old_size + k (mod 2^32) - the source
executes file_size += transferred and persists that value, rather
than max(old_size, file_offset). -/
theorem fat_write_size_update (v : Vol) (f : Fat) (len : Nat)
    (hw : f.mode.rdwr = true ∨ f.mode.wronly = true)
    (hidx : f.de_index < (v.dirOf f.de_parent).length) :
    ∃ k, k ≤ len ∧
      (fat_write v f len).2.2.1 = (k : Int) ∧
      (fat_write v f len).2.1.file_size = (f.file_size + k) % 2 ^ 32 ∧
      recordedSize (fat_write v f len).1 f.de_parent f.de_index
        = (fat_write v f len).2.1.file_size := by
  rw [fat_write, if_neg (not_not_intro hw)]
  dsimp only
  obtain ⟨h1, h2, h3, h4, h5⟩ :=
    fat_write_go_preserve v f (len % 2 ^ 16) (len % 2 ^ 16) []
  refine ⟨len - (fat_write_go v f (len % 2 ^ 16) (len % 2 ^ 16) []).bytes_left,
    Nat.sub_le _ _, rfl, ?_, ?_⟩
  · rw [h1]
  · rw [← h2, ← h3]
    rw [recordedSize_fat_size_set]
    · omega
    · rw [h4, h2, h3]
      exact hidx

/-- Witness for fat_write_size_update on the concrete V1/F1. -/
theorem fat_write_size_update_witness :
    ∃ k : Nat, k ≤ 1 ∧
      (fat_write V1 F1 1).2.2.1 = (k : Int) ∧
      (fat_write V1 F1 1).2.1.file_size = (F1.file_size + k) % 2 ^ 32 ∧
      recordedSize (fat_write V1 F1 1).1 F1.de_parent F1.de_index
        = (fat_write V1 F1 1).2.1.file_size :=
  fat_write_size_update V1 F1 1 (Or.inl rfl) (by decide)

/-! ## Wildcard name matching (szWildMatch8) and short-name display
(dos2str)

szWildMatch8 is the iterative glob matcher of the source with goto
backtracking; `star`/`strB`/`patB` are the backtrack state, `s`/`p` the
inner loop cursors.  Every step consumes one unit of fuel.  A starCheck
consumes one byte of the backtrack string, between two starChecks each
'*' jump shortens the pattern, and a round of the inner loop takes at
most |str| + 1 steps, so (|str|+1)(|pat|+1) rounds of at most |str|+2
steps each bound the run; the fuel chosen by `szWildMatch8` exceeds
this bound, so the fuel-exhausted value is never reached.  Bytes are
ASCII; 42 is the star, 63 the question mark, 46 the dot, 47 the
slash. -/

def toupperB (b : Nat) : Nat := if 97 ≤ b ∧ b ≤ 122 then b - 32 else b

def szWildMatch8_go : Nat → Bool → List Nat → List Nat → List Nat → List Nat → Bool
  | 0, _, _, _, _, _ => false
  | fuel + 1, star, strB, patB, s, p =>
    match s with
    | [] =>
      (match p with
       | 42 :: p' => p'.isEmpty
       | _ => p.isEmpty)
    | c :: s' =>
      match p with
      | 42 :: p' =>
        if p' = [] then true
        else szWildMatch8_go fuel true (c :: s') p' (c :: s') p'
      | 63 :: p' =>
        if c = 46 then
          (if star = false then false
           else
             match strB with
             | [] => false
             | _ :: strB' => szWildMatch8_go fuel star strB' patB strB' patB)
        else szWildMatch8_go fuel star strB patB s' p'
      | pc :: p' =>
        if toupperB c = toupperB pc then szWildMatch8_go fuel star strB patB s' p'
        else
          (if star = false then false
           else
             match strB with
             | [] => false
             | _ :: strB' => szWildMatch8_go fuel star strB' patB strB' patB)
      | [] =>
        (if star = false then false
         else
           match strB with
           | [] => false
           | _ :: strB' => szWildMatch8_go fuel star strB' patB strB' patB)

def szWildMatch8 (pat str : List Nat) : Bool :=
  szWildMatch8_go ((str.length + 1) * (pat.length + 1) * (str.length + 2)
      + pat.length + 2)
    false str pat str pat

/-- dos2str: trim the space padding of the 8-byte name and 3-byte
extension and join them with a dot. -/
def dos2str (dosName dosExt : List Nat) : List Nat :=
  let base := (dosName.take 8).takeWhile fun b => b != 0 && b != 32
  match dosExt.head? with
  | some e =>
    if e ≠ 0 ∧ e ≠ 32 then
      base ++ [46] ++ ((dosExt.take 3).takeWhile fun b => b != 0 && b != 32)
    else base
  | none => base

def slotNameBytes (s : Slot) : List Nat :=
  [s 0, s 1, s 2, s 3, s 4, s 5, s 6, s 7]

def slotExtBytes (s : Slot) : List Nat := [s 8, s 9, s 10]

/-- The C-string content of the long-name staging buffer. -/
def cstr (l : List Nat) : List Nat := l.takeWhile fun b => b != 0

/-- Copy the 13 characters of one long-name slot (low bytes of the
UCS-2 pairs of wePart1/wePart2/wePart3) into the staging buffer at
`off` (= (seq - 1) * 13 truncated to uint8, as in the source). -/
def lfnStorePart (buf : List Nat) (s : Slot) (off : Nat) : List Nat :=
  ((((((((((((buf.set off (s 1)).set (off + 1) (s 3)).set (off + 2) (s 5)).set
    (off + 3) (s 7)).set (off + 4) (s 9)).set (off + 5) (s 14)).set
    (off + 6) (s 16)).set (off + 7) (s 18)).set (off + 8) (s 20)).set
    (off + 9) (s 22)).set (off + 10) (s 24)).set (off + 11) (s 28)).set
    (off + 12) (s 30)

/-! ## Directory search (fat_dir_search) -/

structure FF where
  cluster : Nat
  de_index : Nat
  isdir : Bool
  name : List Nat
  de : Slot

/-- One fat_dir_search scan, iterating slot index `i` over the linear
slot sequence of the directory.  `none` at a missing slot models the
scan leaving the region the directory's chain holds (a well-formed
directory terminates with a 0x00 slot first). -/
def fat_dir_search_go (dir : List Slot) (name : List Nat) :
    Nat → Nat → List Nat → Bool → Option FF
  | 0, _, _, _ => none
  | fuel + 1, i, nameBuf, longmatch =>
    match dir.get? i with
    | none => none
    | some de =>
      if slotName0 de = SLOT_EMPTY then none
      else if slotName0 de = SLOT_DELETED then
        fat_dir_search_go dir name fuel (i + 1) nameBuf longmatch
      else if fat_de_attr_long_filename_p de = true then
        let weCnt := de 0
        let buf1 := if Nat.land weCnt WIN_LAST ≠ 0 then List.replicate 256 0
                    else nameBuf
        let nameoffset := (Nat.land weCnt WIN_CNT + 255) % 256 * WIN_CHARS % 256
        let buf2 := lfnStorePart buf1 de nameoffset
        let longmatch' := if Nat.land weCnt WIN_CNT = 1 then
                            szWildMatch8 name (cstr buf2)
                          else longmatch
        fat_dir_search_go dir name fuel (i + 1) buf2 longmatch'
      else
        let matchspace := dos2str (slotNameBytes de) (slotExtBytes de)
        let m := szWildMatch8 name matchspace
        if matchspace ≠ [46] ∧ (m = true ∨ longmatch = true) ∧
            fat_de_attr_volume_p de = false then
          some { cluster := Nat.lor (Nat.shiftLeft (slotClusterHigh de) 16)
                   (slotClusterLow de)
                 de_index := i
                 isdir := fat_de_attr_dir_p de
                 name := if longmatch = true then nameBuf else matchspace
                 de := de }
        else fat_dir_search_go dir name fuel (i + 1) nameBuf longmatch

def fat_dir_search (dir : List Slot) (name : List Nat) : Option FF :=
  fat_dir_search_go dir name (dir.length + 1) 0 (List.replicate 256 0) false

/-! ## Path resolution (fat_search) -/

/-- The fat_search component loop.  Fuel decreases with each path
component; the caller passes pathname length + 1, which is always
sufficient since each component consumes at least two bytes of the
path.  On a failed component lookup the parent-directory cluster is
invalidated (set to 0) exactly when the failing component was followed
by a slash. -/
def fat_search_go (v : Vol) : Nat → List Nat → Nat → Option FF × Nat
  | 0, _, parent => (none, parent)
  | fuel + 1, p, parent =>
    let tmp := p.takeWhile fun b => b != 47
    if tmp = [] then (none, parent)
    else
      let rest := p.drop tmp.length
      match fat_dir_search (v.dirOf parent) tmp with
      | none => (none, if rest.head? = some 47 then 0 else parent)
      | some ff =>
        match rest with
        | [] => (some ff, parent)
        | _ :: rest' =>
          if ff.isdir = false then (none, parent)
          else if rest' = [] then (some ff, parent)
          else fat_search_go v fuel rest' ff.cluster

/-- fat_search: resolve a slash-separated pathname from the root
directory; a null or empty pathname fails at once.  The second
component of the result is the final parent_dir_cluster of the find
state (consumed by fat_create). -/
def fat_search (v : Vol) (pathname : Option (List Nat)) : Option FF × Nat :=
  match pathname with
  | none => (none, 0)
  | some p =>
    if p = [] then (none, 0)
    else fat_search_go v (p.length + 1) p v.root_dir_cluster

/-! ## fat_open / fat_create / fat_de_add / fat_unlink -/

/-- fat_fs_check_p: reject a corrupt layout. -/
def fat_fs_check_p (v : Vol) : Bool :=
  v.bytes_per_cluster != 0 && v.bytes_per_sector != 0

/-- fat_de_sfn_create: build a short directory entry in place of `de`:
8+3 space-padded uppercased name, attribute NORMAL, 1980 timestamps,
cluster high/low, file size.  Byte 12 (the NT lowerCase flags) is not
written by the source and keeps its previous value. -/
def fat_de_sfn_create (de : Slot) (filename : List Nat) (size cluster : Nat) : Slot :=
  let base := ((filename.takeWhile fun b => b != 46 && b != 0).take 8).map toupperB
  let consumed := min 8 (filename.takeWhile fun b => b != 46 && b != 0).length
  let rest2 := (filename.drop consumed).dropWhile fun b => b != 46 && b != 0
  let rest3 := match rest2 with
               | 46 :: t => t
               | _ => rest2
  let ext := ((rest3.takeWhile fun b => b != 0).take 3).map toupperB
  fun j =>
    if j ≤ 7 then base.getD j 32
    else if j ≤ 10 then ext.getD (j - 8) 32
    else if j = 11 then 0
    else if j = 13 then 0
    else if j = 14 ∨ j = 15 then 0
    else if j = 16 then 0x20
    else if j = 17 then 0
    else if j = 18 then 0x20
    else if j = 19 then 0
    else if j = 20 then cluster / 2 ^ 16 % 256
    else if j = 21 then cluster / 2 ^ 24 % 256
    else if j = 22 ∨ j = 23 then 0
    else if j = 24 then 0x20
    else if j = 25 then 0
    else if j = 26 then cluster % 256
    else if j = 27 then cluster / 2 ^ 8 % 256
    else if j = 28 then size % 256
    else if j = 29 then size / 2 ^ 8 % 256
    else if j = 30 then size / 2 ^ 16 % 256
    else if j = 31 then size / 2 ^ 24 % 256
    else de j

/-- fat_de_add: scan the directory for the end-of-directory slot (the
loop body skips everything else), record its position, make sure a slot
follows it, and write the short entry there.  `none` models the two
paths on which the source would extend the directory chain with a
fresh cluster (extension is unmodelled; every directory used in this
development keeps a terminator with a spare slot behind it). -/
def fat_de_add (v : Vol) (filename : List Nat)
    (cluster_dir cluster_start size : Nat) : Vol × Option Nat :=
  let dir := v.dirOf cluster_dir
  match dir.findIdx? (fun s => slotName0 s == SLOT_EMPTY) with
  | none => (v, none)
  | some t =>
    if t + 1 < dir.length then
      let de := dir.getD t (fun _ => 0)
      let de' := fat_de_sfn_create de filename size cluster_start
      ({ v with dirOf := fun c => if c = cluster_dir then List.set (v.dirOf c) t de' else v.dirOf c },
       some t)
    else (v, none)

/-- The final component of a pathname (the suffix after the last
slash), as computed by the strchr loop of fat_create. -/
def fat_lastcomp_go : Nat → List Nat → List Nat
  | 0, p => p
  | fuel + 1, p =>
    match p.dropWhile (fun b => b != 47) with
    | [] => p
    | _ :: t => fat_lastcomp_go fuel t

def fat_lastcomp (p : List Nat) : List Nat := fat_lastcomp_go (p.length + 1) p

/-- fat_create: require a valid parent cluster from the failed lookup,
allocate one cluster as the initial chain (a zero size still gets one
cluster), and add a short entry of size 0 to the parent directory.
State changes made before a failure persist, as in the source. -/
def fat_create (v : Vol) (pathname : List Nat) (parent_dir_cluster : Nat)
    (mode : Mode) : Vol × Option Fat :=
  if parent_dir_cluster = 0 then (v, none)
  else
    let filename := fat_lastcomp pathname
    let size := 0
    let alloc := fat_clusters_allocate v 0 (if size = 0 then 1 else size)
    if alloc.1 = 0 then (alloc.2, none)
    else
      match fat_de_add alloc.2 filename parent_dir_cluster alloc.1 size with
      | (v2, none) => (v2, none)
      | (v2, some idx) =>
        (v2, some { mode := mode, file_offset := 0, file_size := size,
                    start_cluster := alloc.1, cluster := alloc.1,
                    de_parent := parent_dir_cluster, de_index := idx })

/-- fat_open: check the volume, reject null/empty pathnames, resolve;
on a found file reject directories, apply TRUNC (zero the size and
write it back) when the mode is write-capable, position at size for
APPEND else at 0; on a failed lookup create the file when CREAT is
given, else fail. -/
def fat_open (v : Vol) (pathname : Option (List Nat)) (mode : Mode) :
    Option Fat × Vol :=
  if fat_fs_check_p v = false then (none, v)
  else
    match pathname with
    | none => (none, v)
    | some p =>
      if p = [] then (none, v)
      else
        match fat_search v (some p) with
        | (some ff, parent) =>
          if ff.isdir = true then (none, v)
          else
            let f0 : Fat := { mode := mode, file_offset := 0,
                              file_size := slotFileSize ff.de,
                              start_cluster := ff.cluster, cluster := ff.cluster,
                              de_parent := parent, de_index := ff.de_index }
            if mode.trunc = true ∧ (mode.rdwr = true ∨ mode.wronly = true) then
              let f1 : Fat := { f0 with file_size := 0 }
              let v1 := fat_size_set v parent ff.de_index 0
              (some { f1 with file_offset := if mode.append = true then f1.file_size else 0 }, v1)
            else
              (some { f0 with file_offset := if mode.append = true then f0.file_size else 0 }, v)
        | (none, parent) =>
          if mode.creat = true then
            match fat_create v p parent mode with
            | (v', some f) =>
              (some { f with file_offset := if mode.append = true then f.file_size else 0 }, v')
            | (v', none) => (none, v')
          else (none, v)

/-- The inner marking loop of fat_unlink: starting at the found slot,
mark long-filename slots deleted while advancing; returns the new
directory and the index the loop stopped at (the short slot). -/
def fat_unlink_mark_lfn : Nat → List Slot → Nat → List Slot × Nat
  | 0, dir, i => (dir, i)
  | fuel + 1, dir, i =>
    match dir.get? i with
    | none => (dir, i)
    | some s =>
      if fat_de_attr_long_filename_p s = true then
        fat_unlink_mark_lfn fuel (dir.set i (slotMarkDeleted s)) (i + 1)
      else (dir, i)

/-- The outer re-scan of fat_unlink: iterate until the slot at the
recorded position, then run the marking loop and mark the slot it
stops at.  Stops unchanged at the 0x00 terminator (the source traces
"lost dir entry" and still returns 0). -/
def fat_unlink_scan : Nat → List Slot → Nat → Nat → List Slot
  | 0, dir, _, _ => dir
  | fuel + 1, dir, target, i =>
    match dir.get? i with
    | none => dir
    | some s =>
      if slotName0 s = SLOT_EMPTY then dir
      else if i = target then
        let mk := fat_unlink_mark_lfn dir.length dir i
        match mk.1.get? mk.2 with
        | some s' => mk.1.set mk.2 (slotMarkDeleted s')
        | none => mk.1
      else fat_unlink_scan fuel dir target (i + 1)

/-- fat_unlink: resolve (ENOENT on failure, EISDIR on a directory),
free the cluster chain from the file's start cluster, then re-scan the
parent directory marking the recorded slot; returns 0 on the deletion
path.  `chainFuel` bounds the modelled chain walk (the C loop is
unbounded); theorems instantiate it with the chain length. -/
def fat_unlink (v : Vol) (pathname : Option (List Nat)) (chainFuel : Nat) :
    Vol × Int :=
  match fat_search v pathname with
  | (none, _) => (v, -1)
  | (some ff, parent) =>
    if ff.isdir = true then (v, -1)
    else
      let v1 := fat_cluster_chain_free_v v chainFuel ff.cluster
      let dir := v1.dirOf parent
      let dir' := fat_unlink_scan (dir.length + 1) dir ff.de_index 0
      ({ v1 with dirOf := fun c => if c = parent then dir' else v1.dirOf c }, 0)

/-! ## Facts delivered by a successful directory search -/

/-- What fat_dir_search establishes about its hit: the recorded index
holds the returned (short, non-empty) entry, and every slot the scan
passed on the way is present with a nonzero first name byte. -/
def SearchFound (dir : List Slot) (ff : FF) : Prop :=
  dir.get? ff.de_index = some ff.de ∧
  fat_de_attr_long_filename_p ff.de = false ∧
  slotName0 ff.de ≠ SLOT_EMPTY ∧
  ∀ j, j < ff.de_index → ∃ s, dir.get? j = some s ∧ slotName0 s ≠ SLOT_EMPTY

theorem fat_dir_search_go_found (dir : List Slot) (name : List Nat) :
    ∀ fuel i nameBuf longmatch ff,
      fat_dir_search_go dir name fuel i nameBuf longmatch = some ff →
      i ≤ ff.de_index ∧ dir.get? ff.de_index = some ff.de ∧
      fat_de_attr_long_filename_p ff.de = false ∧
      slotName0 ff.de ≠ SLOT_EMPTY ∧
      ∀ j, i ≤ j → j < ff.de_index →
        ∃ s, dir.get? j = some s ∧ slotName0 s ≠ SLOT_EMPTY := by
  intro fuel
  induction fuel with
  | zero =>
    intro i nb lm ff h
    cases h
  | succ fuel ih =>
    intro i nb lm ff h
    rw [fat_dir_search_go] at h
    cases hget : dir.get? i with
    | none =>
      rw [hget] at h
      cases h
    | some de =>
      rw [hget] at h
      dsimp only at h
      split at h
      · cases h
      · split at h
        · -- deleted slot: continue
          next h0 _ =>
          obtain ⟨hle, hfound, hlfn, hne, hprev⟩ := ih (i + 1) nb lm ff h
          refine ⟨Nat.le_trans (Nat.le_succ i) hle, hfound, hlfn, hne, ?_⟩
          intro j hij hj
          rcases Nat.eq_or_lt_of_le hij with rfl | hlt
          · exact ⟨de, hget, h0⟩
          · exact hprev j hlt hj
        · split at h
          · -- long-filename slot: continue with the updated staging buffer
            next h0 _ _ =>
            obtain ⟨hle, hfound, hlfn, hne, hprev⟩ := ih (i + 1) _ _ ff h
            refine ⟨Nat.le_trans (Nat.le_succ i) hle, hfound, hlfn, hne, ?_⟩
            intro j hij hj
            rcases Nat.eq_or_lt_of_le hij with rfl | hlt
            · exact ⟨de, hget, h0⟩
            · exact hprev j hlt hj
          · -- short entry
            split at h
            · -- hit: ff is the literal built here
              next h0 _ hnotlfn _ =>
              cases h
              refine ⟨Nat.le_refl i, hget, ?_, h0, ?_⟩
              · simpa using hnotlfn
              · intro j hij hj
                dsimp only at hj
                exact absurd hj (by omega)
            · -- miss: continue
              next h0 _ hnotlfn _ =>
              obtain ⟨hle, hfound, hlfn, hne, hprev⟩ := ih (i + 1) nb lm ff h
              refine ⟨Nat.le_trans (Nat.le_succ i) hle, hfound, hlfn, hne, ?_⟩
              intro j hij hj
              rcases Nat.eq_or_lt_of_le hij with rfl | hlt
              · exact ⟨de, hget, h0⟩
              · exact hprev j hlt hj

theorem fat_dir_search_found (dir : List Slot) (name : List Nat) (ff : FF)
    (h : fat_dir_search dir name = some ff) : SearchFound dir ff := by
  obtain ⟨_, hfound, hlfn, hne, hprev⟩ :=
    fat_dir_search_go_found dir name (dir.length + 1) 0 (List.replicate 256 0)
      false ff h
  exact ⟨hfound, hlfn, hne, fun j hj => hprev j (Nat.zero_le j) hj⟩

theorem fat_search_go_found (v : Vol) :
    ∀ fuel p parent ff po,
      fat_search_go v fuel p parent = (some ff, po) →
      SearchFound (v.dirOf po) ff := by
  intro fuel
  induction fuel with
  | zero =>
    intro p parent ff po h
    cases h
  | succ fuel ih =>
    intro p parent ff po h
    rw [fat_search_go] at h
    dsimp only at h
    split at h
    · simp at h
    · split at h
      · simp at h
      · rename_i ff' heq
        split at h
        · -- terminal component
          rw [Prod.mk.injEq] at h
          obtain ⟨h1, h2⟩ := h
          injection h1 with h1
          subst h1
          subst h2
          exact fat_dir_search_found _ _ _ heq
        · split at h
          · simp at h
          · split at h
            · -- trailing slash on a directory
              rw [Prod.mk.injEq] at h
              obtain ⟨h1, h2⟩ := h
              injection h1 with h1
              subst h1
              subst h2
              exact fat_dir_search_found _ _ _ heq
            · exact ih _ _ _ _ h

theorem fat_search_found (v : Vol) (p : List Nat) (ff : FF) (po : Nat)
    (h : fat_search v (some p) = (some ff, po)) : SearchFound (v.dirOf po) ff := by
  rw [fat_search] at h
  split at h
  · cases h
  · exact fat_search_go_found v _ p v.root_dir_cluster ff po h

/-- Freeing a chain only writes FAT entries; directories are untouched. -/
theorem fat_cluster_chain_free_v_dirOf (fuel : Nat) :
    ∀ (v : Vol) (cluster : Nat),
      (fat_cluster_chain_free_v v fuel cluster).dirOf = v.dirOf := by
  induction fuel with
  | zero =>
    intro v cluster
    rw [fat_cluster_chain_free_v.eq_def]
    split <;> rfl
  | succ fuel ih =>
    intro v cluster
    rw [fat_cluster_chain_free_v.eq_def]
    split
    · rfl
    · exact ih _ _

/-! ## What the unlink re-scan does -/

theorem fat_unlink_mark_lfn_nonlfn (fuel : Nat) (dir : List Slot) (i : Nat)
    (s : Slot) (hget : dir.get? i = some s)
    (hlfn : fat_de_attr_long_filename_p s = false) :
    fat_unlink_mark_lfn fuel dir i = (dir, i) := by
  cases fuel with
  | zero => rfl
  | succ fuel =>
    rw [fat_unlink_mark_lfn, hget]
    simp [hlfn]

/-- When the scan target is a short (non-long-filename) entry that the
scan can reach - every earlier slot is present with a nonzero first
name byte - the re-scan marks exactly the target slot deleted. -/
theorem fat_unlink_scan_spec :
    ∀ (fuel : Nat) (dir : List Slot) (target i : Nat) (s : Slot),
      dir.get? target = some s →
      slotName0 s ≠ SLOT_EMPTY →
      fat_de_attr_long_filename_p s = false →
      i ≤ target → target - i < fuel →
      (∀ j, i ≤ j → j < target →
        ∃ s', dir.get? j = some s' ∧ slotName0 s' ≠ SLOT_EMPTY) →
      fat_unlink_scan fuel dir target i = dir.set target (slotMarkDeleted s) := by
  intro fuel
  induction fuel with
  | zero =>
    intro dir target i s _ _ _ _ hfuel _
    omega
  | succ fuel ih =>
    intro dir target i s hget hne hlfn hle hfuel hprev
    rcases Nat.eq_or_lt_of_le hle with rfl | hlt
    · rw [fat_unlink_scan, hget]
      dsimp only
      rw [if_neg hne, if_pos rfl,
        fat_unlink_mark_lfn_nonlfn dir.length dir i s hget hlfn]
      dsimp only
      rw [hget]
    · obtain ⟨s', hget', hne'⟩ := hprev i (Nat.le_refl i) hlt
      rw [fat_unlink_scan, hget']
      dsimp only
      rw [if_neg hne', if_neg (by omega)]
      exact ih dir target (i + 1) s hget hne hlfn hlt (by omega)
        fun j hj hj' => hprev j (by omega) hj'

/-! ## C3: unlink and preceding long-filename slots -/

/-- The long-filename slot preceding B.TXT's short entry: sequence
byte 0x41 (LAST | 1), fragment "B.TXT", attribute 0x0f. -/
def LfnSlot : Slot := slotOfList [0x41, 66, 0, 46, 0, 84, 0, 88, 0, 84, 0, 0x0f]

/-- A volume whose root directory records B.TXT with one preceding
long-filename slot; the file's chain is the single cluster 3. -/
def V3 : Vol :=
  { isFAT32 := true
    bytes_per_sector := 4
    sectors_per_cluster := 1
    bytes_per_cluster := 4
    first_data_sector := 10
    first_dir_sector := 0
    root_dir_cluster := 2
    num_clusters := 8
    fat := fun c => if c = 2 ∨ c = 3 then 0x0ffffff8 else 0
    dirOf := fun c => if c = 2 then [LfnSlot, SlotF1, TermSlot] else [] }

/-- The pathname "B.TXT" as bytes. -/
def P_BTXT : List Nat := [66, 46, 84, 88, 84]

/-- C3 counterexample: unlinking B.TXT from V3 succeeds (status 0) and
marks the short slot deleted, but the preceding long-filename slot
keeps its first name byte 0x41 - it is not marked 0xE5 as the claim
requires. -/
theorem fat_unlink_lfn_cx :
    fat_de_attr_long_filename_p LfnSlot = true ∧
    (fat_unlink V3 (some P_BTXT) 1).2 = 0 ∧
    (((fat_unlink V3 (some P_BTXT) 1).1.dirOf 2).getD 1 (fun _ => 0)) 0
      = SLOT_DELETED ∧
    (((fat_unlink V3 (some P_BTXT) 1).1.dirOf 2).getD 0 (fun _ => 0)) 0 = 0x41 ∧
    (0x41 : Nat) ≠ SLOT_DELETED := by
  refine ⟨by decide, by decide, by decide, by decide, by decide⟩

/-- C3 amended: unlink of a found file marks only the short directory
slot deleted (first name byte 0xE5); the long-filename slots preceding
it - like every other slot of the parent directory - are left
untouched.  The inner marking loop of the source starts at the
recorded position of the short entry, whose attribute is not the
long-filename attribute, so it runs zero times. -/
theorem fat_unlink_marks_short_only (v : Vol) (p : List Nat) (ff : FF)
    (parent chainFuel : Nat)
    (hs : fat_search v (some p) = (some ff, parent))
    (hdir : ff.isdir = false) :
    (fat_unlink v (some p) chainFuel).2 = 0 ∧
    ((fat_unlink v (some p) chainFuel).1.dirOf parent
      = (v.dirOf parent).set ff.de_index (slotMarkDeleted ff.de)) ∧
    (((fat_unlink v (some p) chainFuel).1.dirOf parent).get? ff.de_index
      = some (slotMarkDeleted ff.de)) ∧
    (∀ j, j ≠ ff.de_index →
      ((fat_unlink v (some p) chainFuel).1.dirOf parent).get? j
        = (v.dirOf parent).get? j) := by
  obtain ⟨hfound, hlfn, hne, hprev⟩ := fat_search_found v p ff parent hs
  have hlen : ff.de_index < (v.dirOf parent).length :=
    (List.get?_eq_some.1 hfound).1
  have hdirof : (fat_cluster_chain_free_v v chainFuel ff.cluster).dirOf
      = v.dirOf := fat_cluster_chain_free_v_dirOf chainFuel v ff.cluster
  have hscan : fat_unlink_scan ((v.dirOf parent).length + 1) (v.dirOf parent)
      ff.de_index 0 = (v.dirOf parent).set ff.de_index (slotMarkDeleted ff.de) :=
    fat_unlink_scan_spec _ _ _ 0 ff.de hfound hne hlfn (Nat.zero_le _)
      (by omega) (fun j _ hj => hprev j hj)
  have hcore : fat_unlink v (some p) chainFuel
      = ({ (fat_cluster_chain_free_v v chainFuel ff.cluster) with
            dirOf := fun c =>
              if c = parent then
                fat_unlink_scan
                  (((fat_cluster_chain_free_v v chainFuel ff.cluster).dirOf
                    parent).length + 1)
                  ((fat_cluster_chain_free_v v chainFuel ff.cluster).dirOf parent)
                  ff.de_index 0
              else (fat_cluster_chain_free_v v chainFuel ff.cluster).dirOf c },
         0) := by
    rw [fat_unlink, hs]
    simp [hdir]
  refine ⟨by rw [hcore], ?_, ?_, ?_⟩
  · rw [hcore]
    dsimp only
    rw [if_pos rfl, hdirof, hscan]
  · rw [hcore]
    dsimp only
    rw [if_pos rfl, hdirof, hscan]
    exact List.get?_set_eq_of_lt _ hlen
  · intro j hj
    rw [hcore]
    dsimp only
    rw [if_pos rfl, hdirof, hscan]
    exact List.get?_set_ne _ _ (Ne.symm hj)

/-- The search result for B.TXT in V3: the short entry at slot index 1,
found through a long-name match (the staging buffer holds the
reassembled fragment). -/
def FF3 : FF :=
  { cluster := 3
    de_index := 1
    isdir := false
    name := lfnStorePart (List.replicate 256 0) LfnSlot 0
    de := SlotF1 }

/-- Witness for fat_unlink_marks_short_only on V3. -/
theorem fat_unlink_marks_short_only_witness :
    (fat_unlink V3 (some P_BTXT) 1).2 = 0 ∧
    ((fat_unlink V3 (some P_BTXT) 1).1.dirOf 2
      = (V3.dirOf 2).set 1 (slotMarkDeleted SlotF1)) ∧
    (((fat_unlink V3 (some P_BTXT) 1).1.dirOf 2).get? 0
      = (V3.dirOf 2).get? 0) :=
  ⟨(fat_unlink_marks_short_only V3 P_BTXT FF3 2 1 rfl rfl).1,
   (fat_unlink_marks_short_only V3 P_BTXT FF3 2 1 rfl rfl).2.1,
   (fat_unlink_marks_short_only V3 P_BTXT FF3 2 1 rfl rfl).2.2.2 0 (by decide)⟩

/-! ## C5: chain freeing and unlink -/

/-- C5: on a well-formed chain `cs` starting at the found file's start
cluster, fat_cluster_chain_free clears every FAT entry of the chain to
0 and touches no other entry (it stops at the end-of-chain sentinel);
consequently after fat_unlink of the file every cluster of its former
chain is free. -/
theorem fat_cluster_chain_free_unlink_spec (v : Vol) (p : List Nat) (ff : FF)
    (parent : Nat) (cs : List Nat)
    (hs : fat_search v (some p) = (some ff, parent))
    (hdir : ff.isdir = false)
    (hok : chainOkB v cs = true)
    (hhead : cs.head? = some ff.cluster) :
    (∀ c ∈ cs, (fat_cluster_chain_free_v v cs.length ff.cluster).fat c = 0) ∧
    (∀ c, c ∉ cs →
      (fat_cluster_chain_free_v v cs.length ff.cluster).fat c = v.fat c) ∧
    (∀ c ∈ cs, (fat_unlink v (some p) cs.length).1.fat c = 0) := by
  have h1 := fat_cluster_chain_free_clears cs v ff.cluster hok hhead
  refine ⟨h1.1, h1.2, ?_⟩
  intro c hc
  have hcore : (fat_unlink v (some p) cs.length).1.fat
      = (fat_cluster_chain_free_v v cs.length ff.cluster).fat := by
    rw [fat_unlink, hs]
    simp [hdir]
  rw [hcore]
  exact h1.1 c hc

/-- A short entry for a file named "A" with start cluster 3. -/
def SlotA : Slot := slotOfList
  [65, 32, 32, 32, 32, 32, 32, 32, 32, 32, 32, 0x20, 0, 0, 0, 0,
   0x20, 0, 0x20, 0, 0, 0, 0, 0, 0x20, 0, 3, 0, 0, 0, 0, 0]

/-- A volume whose root directory holds the file "A" with the
two-cluster chain 3 -> 4 -> end-of-chain. -/
def V5 : Vol :=
  { isFAT32 := true
    bytes_per_sector := 4
    sectors_per_cluster := 1
    bytes_per_cluster := 4
    first_data_sector := 10
    first_dir_sector := 0
    root_dir_cluster := 2
    num_clusters := 8
    fat := fun c => if c = 2 then 0x0ffffff8 else if c = 3 then 4
           else if c = 4 then 0x0ffffff8 else 0
    dirOf := fun c => if c = 2 then [SlotA, TermSlot] else [] }

/-- The search result for "A" in V5. -/
def FF5 : FF :=
  { cluster := 3
    de_index := 0
    isdir := false
    name := [65]
    de := SlotA }

/-- Witness for fat_cluster_chain_free_unlink_spec on the concrete
chain [3, 4] of V5. -/
theorem fat_cluster_chain_free_unlink_spec_witness :
    (∀ c ∈ [3, 4], (fat_cluster_chain_free_v V5 2 3).fat c = 0) ∧
    (∀ c, c ∉ ([3, 4] : List Nat) →
      (fat_cluster_chain_free_v V5 2 3).fat c = V5.fat c) ∧
    (∀ c ∈ [3, 4], (fat_unlink V5 (some [65]) 2).1.fat c = 0) :=
  fat_cluster_chain_free_unlink_spec V5 [65] FF5 2 [3, 4] rfl rfl
    (by decide) rfl

/-! ## C2: open with O_TRUNC -/

/-- C2 amended: opening an existing file with TRUNC and a
write-capable mode zeroes the in-memory size and the size recorded in
the directory entry, but frees nothing: the FAT is left entirely
unchanged (the former cluster chain stays allocated) and the handle
still points at the old start cluster. -/
theorem fat_open_trunc (v : Vol) (p : List Nat) (ff : FF) (parent : Nat)
    (mode : Mode)
    (hchk : fat_fs_check_p v = true)
    (hs : fat_search v (some p) = (some ff, parent))
    (hdir : ff.isdir = false)
    (htr : mode.trunc = true)
    (hw : mode.rdwr = true ∨ mode.wronly = true) :
    ((fat_open v (some p) mode).1.map Fat.file_size = some 0) ∧
    ((fat_open v (some p) mode).1.map Fat.start_cluster = some ff.cluster) ∧
    ((fat_open v (some p) mode).2.fat = v.fat) ∧
    (recordedSize (fat_open v (some p) mode).2 parent ff.de_index = 0) := by
  have hne : p ≠ [] := by
    intro hp
    subst hp
    rw [fat_search] at hs
    simp at hs
  have hlen : ff.de_index < (v.dirOf parent).length :=
    (List.get?_eq_some.1 (fat_search_found v p ff parent hs).1).1
  have hopen : fat_open v (some p) mode
      = (some { mode := mode, file_offset := if mode.append = true then 0 else 0,
                file_size := 0, start_cluster := ff.cluster,
                cluster := ff.cluster, de_parent := parent,
                de_index := ff.de_index },
         fat_size_set v parent ff.de_index 0) := by
    rw [fat_open, if_neg (by simp [hchk])]
    dsimp only
    rw [if_neg hne, hs]
    dsimp only
    rw [if_neg (by simp [hdir]), if_pos ⟨htr, hw⟩]
  rw [hopen]
  refine ⟨rfl, rfl, rfl, ?_⟩
  rw [recordedSize_fat_size_set v parent ff.de_index 0 hlen]
  omega

/-- Write-capable TRUNC mode. -/
def M2 : Mode :=
  { rdwr := true, wronly := false, creat := false, trunc := true, append := false }

/-- C2 counterexample: opening B.TXT on V1 with TRUNC|RDWR yields a
handle of size 0, but cluster 3 - the file's former (and only) chain
cluster - still holds the end-of-chain raw value 0x0ffffff8 and is not
free: the old chain is not released. -/
theorem fat_open_trunc_cx :
    ((fat_open V1 (some P_BTXT) M2).1.map Fat.file_size = some 0) ∧
    ((fat_open V1 (some P_BTXT) M2).2.fat 3 = 0x0ffffff8) ∧
    (fat_cluster_free_p
      (fat_entry_get_m (fat_open V1 (some P_BTXT) M2).2 3) = false) := by
  refine ⟨by decide, by decide, by decide⟩

/-- The search result for B.TXT in V1. -/
def FF2 : FF :=
  { cluster := 3
    de_index := 0
    isdir := false
    name := P_BTXT
    de := SlotF1 }

/-- Witness for fat_open_trunc on V1. -/
theorem fat_open_trunc_witness :
    ((fat_open V1 (some P_BTXT) M2).1.map Fat.file_size = some 0) ∧
    ((fat_open V1 (some P_BTXT) M2).2.fat = V1.fat) ∧
    (recordedSize (fat_open V1 (some P_BTXT) M2).2 2 0 = 0) :=
  ⟨(fat_open_trunc V1 P_BTXT FF2 2 M2 rfl rfl rfl rfl (Or.inl rfl)).1,
   (fat_open_trunc V1 P_BTXT FF2 2 M2 rfl rfl rfl rfl (Or.inl rfl)).2.2.1,
   (fat_open_trunc V1 P_BTXT FF2 2 M2 rfl rfl rfl rfl (Or.inl rfl)).2.2.2⟩

/-! ## C10: null, empty and empty-component pathnames -/

/-- A pathname contains an empty component: its first component is
empty (a leading slash), or after some component and its slash the
remainder is nonempty and again has an empty component ("a//b"); a
single trailing slash is not an empty component.  The recursion
mirrors fat_search_go component-by-component. -/
def pathEmptyComp : Nat → List Nat → Bool
  | 0, _ => false
  | fuel + 1, p =>
    let tmp := p.takeWhile fun b => b != 47
    if tmp = [] then !p.isEmpty
    else
      match p.drop tmp.length with
      | [] => false
      | _ :: rest' => !rest'.isEmpty && pathEmptyComp fuel rest'

def hasEmptyComponent (p : List Nat) : Bool := pathEmptyComp (p.length + 1) p

/-- A pathname with an empty component never resolves. -/
theorem fat_search_go_emptycomp (v : Vol) :
    ∀ fuel p parent, pathEmptyComp fuel p = true →
      (fat_search_go v fuel p parent).1 = none := by
  intro fuel
  induction fuel with
  | zero =>
    intro p parent h
    cases h
  | succ fuel ih =>
    intro p parent h
    rw [pathEmptyComp] at h
    rw [fat_search_go]
    dsimp only at h ⊢
    split
    · rfl
    · next htmp =>
      rw [if_neg htmp] at h
      cases hdrop : p.drop (p.takeWhile fun b => b != 47).length with
      | nil =>
        rw [hdrop] at h
        cases h
      | cons hd rest' =>
        rw [hdrop] at h
        simp only [Bool.and_eq_true, Bool.not_eq_true'] at h
        cases hsearch : fat_dir_search (v.dirOf parent)
            (p.takeWhile fun b => b != 47) with
        | none => rfl
        | some ff =>
          dsimp only
          split
          · rfl
          · have hr : rest' ≠ [] := by
              intro hr
              rw [hr] at h
              simp at h
            rw [if_neg hr]
            exact ih rest' ff.cluster h.2

/-- How fat_search_go reduces when the fuel runs while the path still
has an empty component is irrelevant here: fat_search always passes
pathname length + 1, and pathEmptyComp consumes fuel in lockstep. -/
theorem fat_search_emptycomp (v : Vol) (p : List Nat)
    (h : hasEmptyComponent p = true) : (fat_search v (some p)).1 = none := by
  rw [fat_search]
  split
  · rfl
  · exact fat_search_go_emptycomp v (p.length + 1) p v.root_dir_cluster h

/-- C10 amended: open and unlink with a null pathname, an empty
pathname, or (for unlink, and for open without O_CREAT) a pathname
containing an empty component fail and leave the volume - FAT and all
directories - untouched.  Open *with* O_CREAT on an empty-component
pathname is the exception the counterexample exhibits. -/
theorem fat_open_unlink_bad_path (v : Vol) (mode : Mode) (fuel : Nat) :
    (fat_open v none mode = (none, v)) ∧
    (fat_open v (some []) mode = (none, v)) ∧
    (∀ p, hasEmptyComponent p = true → mode.creat = false →
      fat_open v (some p) mode = (none, v)) ∧
    (fat_unlink v none fuel = (v, -1)) ∧
    (fat_unlink v (some []) fuel = (v, -1)) ∧
    (∀ p, hasEmptyComponent p = true →
      fat_unlink v (some p) fuel = (v, -1)) := by
  refine ⟨?_, ?_, ?_, ?_, ?_, ?_⟩
  · rw [fat_open]
    split <;> rfl
  · rw [fat_open]
    split
    · rfl
    · rfl
  · intro p hp hcreat
    have hs := fat_search_emptycomp v p hp
    rw [fat_open]
    split
    · rfl
    · dsimp only
      split
      · rfl
      · rcases hpair : fat_search v (some p) with ⟨o, po⟩
        rw [hpair] at hs
        dsimp only at hs
        subst hs
        dsimp only
        rw [if_neg (by simp [hcreat])]
  · rfl
  · rw [fat_unlink]
    dsimp only
    rfl
  · intro p hp
    have hs := fat_search_emptycomp v p hp
    rw [fat_unlink]
    rcases hpair : fat_search v (some p) with ⟨o, po⟩
    rw [hpair] at hs
    dsimp only at hs
    subst hs
    rfl

/-- A directory entry for the subdirectory "A" at cluster 3. -/
def SlotDirA : Slot := slotOfList
  [65, 32, 32, 32, 32, 32, 32, 32, 32, 32, 32, 0x10, 0, 0, 0, 0,
   0, 0, 0, 0, 0, 0, 0, 0, 0, 0, 3, 0, 0, 0, 0, 0]

/-- A volume with subdirectory /A (cluster 3, one free slot behind its
terminator) and free clusters from 4 up. -/
def V10 : Vol :=
  { isFAT32 := true
    bytes_per_sector := 4
    sectors_per_cluster := 1
    bytes_per_cluster := 4
    first_data_sector := 10
    first_dir_sector := 0
    root_dir_cluster := 2
    num_clusters := 8
    fat := fun c => if c = 2 ∨ c = 3 then 0x0ffffff8 else 0
    dirOf := fun c => if c = 2 then [SlotDirA, TermSlot]
             else if c = 3 then [TermSlot, TermSlot] else [] }

/-- O_CREAT | O_RDWR. -/
def M10 : Mode :=
  { rdwr := true, wronly := false, creat := true, trunc := false, append := false }

/-- The pathname "A//B" - an empty component between two slashes. -/
def P10 : List Nat := [65, 47, 47, 66]

/-- C10 counterexample: open("A//B", CREAT|RDWR) on V10 does NOT fail:
the empty final lookup leaves parent_dir_cluster pointing at /A, so
create allocates cluster 4 (its FAT entry changes from free to
end-of-chain) and writes a directory entry "B" into /A - the volume
state is modified and a handle is returned. -/
theorem fat_open_empty_component_creat_cx :
    hasEmptyComponent P10 = true ∧
    (fat_open V10 (some P10) M10).1.isSome = true ∧
    V10.fat 4 = 0 ∧
    (fat_open V10 (some P10) M10).2.fat 4 = 0xffffffff ∧
    (((fat_open V10 (some P10) M10).2.dirOf 3).getD 0 (fun _ => 0)) 0 = 66 := by
  refine ⟨by decide, by decide, by decide, by decide, by decide⟩

/-- Witness for fat_open_unlink_bad_path at concrete inputs. -/
theorem fat_open_unlink_bad_path_witness :
    fat_open V9 none M_RDONLY = (none, V9) ∧
    fat_open V9 (some []) M_RDONLY = (none, V9) ∧
    fat_open V9 (some P10) M_RDONLY = (none, V9) ∧
    fat_unlink V9 none 1 = (V9, -1) ∧
    fat_unlink V9 (some P10) 1 = (V9, -1) :=
  ⟨(fat_open_unlink_bad_path V9 M_RDONLY 1).1,
   (fat_open_unlink_bad_path V9 M_RDONLY 1).2.1,
   (fat_open_unlink_bad_path V9 M_RDONLY 1).2.2.1 P10 (by decide) rfl,
   (fat_open_unlink_bad_path V9 M_RDONLY 1).2.2.2.1,
   (fat_open_unlink_bad_path V9 M_RDONLY 1).2.2.2.2.2 P10 (by decide)⟩
